import Mathlib

/-!
Verification of the analytics core of `api/processing.py` from the
"am-i-chronically-online" repository.

The Python source is shallowly embedded: floats are modelled as `Rat`,
pandas DataFrames as `List Record`, Python dicts with optional keys as
structures with `Option` fields, and exceptions as `Except String`.
Every definition mirrors the corresponding function or expression of
`api/processing.py`; the mapping is noted in each doc comment.
-/

namespace Chronic

/-- Rounding of an exact rational to the nearest integer with ties going
to the even integer.  This is the rounding used by Python's builtin
`round` and by `format(x, '.1f')` (round-half-even). -/
def rne (q : ℚ) : ℤ :=
  if q - ⌊q⌋ < 1 / 2 then ⌊q⌋
  else if 1 / 2 < q - ⌊q⌋ then ⌊q⌋ + 1
  else if ⌊q⌋ % 2 = 0 then ⌊q⌋ else ⌊q⌋ + 1

/-- Python `round(x, 2)`. -/
def round2 (q : ℚ) : ℚ := (rne (100 * q) : ℚ) / 100

/-- Python `round(x, 1)`. -/
def round1 (q : ℚ) : ℚ := (rne (10 * q) : ℚ) / 10

/-- Python `int(x)` on a float: truncation toward zero. -/
def intTrunc (q : ℚ) : ℤ := if q < 0 then -⌊-q⌋ else ⌊q⌋

/-- Python `f"{x:.1f}"` for the nonnegative values interpolated into tips. -/
def fmt1 (q : ℚ) : String :=
  toString (rne (10 * q) / 10) ++ "." ++ toString (rne (10 * q) % 10)

/-- Python `f"{x:.0f}"`. -/
def fmt0 (q : ℚ) : String := toString (rne q)

/-- A calendar date as produced by `pd.to_datetime` on a `YYYY-MM-DD` string. -/
structure Date where
  year : ℕ
  month : ℕ
  day : ℕ
deriving DecidableEq, Repr

/-- Split a character list on a separator character (used to model parsing
of dashed date strings). -/
def splitOnChar (sep : Char) : List Char → List (List Char)
  | [] => [[]]
  | c :: rest =>
    let r := splitOnChar sep rest
    if c == sep then [] :: r
    else
      match r with
      | h :: t => (c :: h) :: t
      | [] => [[c]]

/-- Interpret a nonempty list of decimal digits as a number. -/
def digitsToNat : List Char → Option ℕ
  | [] => none
  | l =>
    l.foldl
      (fun acc c =>
        match acc with
        | none => none
        | some n => if c.isDigit then some (n * 10 + (c.toNat - 48)) else none)
      (some 0)

/-- Model of `pd.to_datetime` on one date string (`errors` left at its
default `'raise'` in the source, so failure is observable): a dashed
`YYYY-MM-DD` string with numeric components in calendar range parses,
anything else fails. -/
def parseDate (s : String) : Option Date :=
  match splitOnChar '-' s.data with
  | [y, m, d] =>
    match digitsToNat y, digitsToNat m, digitsToNat d with
    | some yn, some mn, some dn =>
      if 1 ≤ mn ∧ mn ≤ 12 ∧ 1 ≤ dn ∧ dn ≤ 31 then some ⟨yn, mn, dn⟩ else none
    | _, _, _ => none
  | _ => none

/-- Julian day number of a date (standard civil-calendar formula); used to
model the pandas datetime ordering and weekly bucketing. -/
def jdn (d : Date) : ℕ :=
  let a := (14 - d.month) / 12
  let y := d.year + 4800 - a
  let m := d.month + 12 * a - 3
  d.day + (153 * m + 2) / 5 + 365 * y + y / 4 - y / 100 + y / 400 - 32045

/-- The `W` period of `pd.Period`: weeks running Monday through Sunday.
Two dates land in the same bucket exactly when the source's
`date.dt.to_period('W')` gives them the same period; the period's textual
label is determined by this index. -/
def weekIndex (d : Date) : ℕ := jdn d / 7

/-- Numeric key realising the chronological order of dates. -/
def dateKey (d : Date) : ℕ := d.year * 10000 + d.month * 100 + d.day

def pad2 (n : ℕ) : String := if n < 10 then "0" ++ toString n else toString n

def pad4 (n : ℕ) : String :=
  if n < 10 then "000" ++ toString n
  else if n < 100 then "00" ++ toString n
  else if n < 1000 then "0" ++ toString n
  else toString n

/-- Python `strftime('%Y-%m-%d')`. -/
def formatDate (d : Date) : String :=
  pad4 d.year ++ "-" ++ pad2 d.month ++ "-" ++ pad2 d.day

/-- Contiguous-substring test on character lists, modelling Python's
`pattern in text`. -/
def infixOfChars (p : List Char) : List Char → Bool
  | [] => p.isEmpty
  | c :: rest => p.isPrefixOf (c :: rest) || infixOfChars p rest

/-- Python `pat in s` for strings. -/
def strContains (s pat : String) : Bool := infixOfChars pat.data s.data

/-- Python `str.lower`. -/
def lowerStr (s : String) : String := ⟨s.data.map Char.toLower⟩

/-- The fixed taxonomy `CATEGORY_PATTERNS` of `processing.py`, as an ordered
association list (Python dicts preserve insertion order, and the source
iterates the dict in that order). -/
def CATEGORY_PATTERNS : List (String × List String) :=
  [("Social Media",
    ["instagram", "facebook", "twitter", "x.com", "tiktok", "snapchat",
     "linkedin", "reddit", "pinterest", "whatsapp", "telegram", "discord",
     "youtube", "twitch", "messenger", "wechat", "line", "viber"]),
   ("Productivity",
    ["gmail", "outlook", "slack", "notion", "trello", "asana", "todoist",
     "calendar", "notes", "reminders", "evernote", "onenote", "google docs",
     "sheets", "drive", "dropbox", "zoom", "teams", "meet"]),
   ("Entertainment",
    ["netflix", "spotify", "apple music", "disney", "hulu", "prime video",
     "hbo", "paramount", "peacock", "crunchyroll", "plex", "vudu"]),
   ("Gaming",
    ["game", "play", "roblox", "minecraft", "fortnite", "pubg", "cod",
     "among us", "candy crush", "clash", "pokemon go"]),
   ("News",
    ["news", "cnn", "bbc", "reuters", "nytimes", "washington post",
     "the guardian", "bloomberg", "wsj", "economist"]),
   ("Shopping",
    ["amazon", "ebay", "etsy", "shopify", "wish", "alibaba", "target",
     "walmart", "best buy", "zara", "nike", "adidas"]),
   ("Health & Fitness",
    ["fitness", "workout", "myfitnesspal", "strava", "nike run", "fitbit",
     "apple health", "calm", "headspace", "meditation", "yoga"]),
   ("Education",
    ["coursera", "udemy", "khan academy", "duolingo", "quizlet", "ted",
     "skillshare", "masterclass", "edx"])]

/-- The loop body of `auto_categorize_app`: return the first category of
the ordered taxonomy one of whose patterns occurs in the (already
lower-cased) app name. -/
def findCategory : List (String × List String) → String → Option String
  | [], _ => none
  | (cat, pats) :: rest, s =>
    if pats.any (fun p => strContains s p) then some cat else findCategory rest s

/-- `auto_categorize_app` of `processing.py`. -/
def auto_categorize_app (app_name : String) : String :=
  (findCategory CATEGORY_PATTERNS (lowerStr app_name)).getD "Other"

/-- The set of category names `auto_categorize_app` can produce: the eight
taxonomy names plus the catch-all. -/
def validCategories : List String := CATEGORY_PATTERNS.map Prod.fst ++ ["Other"]

/-- One raw entry dict as handed to `process_entries`.  An `Option` field
is `none` when the key is absent from the dict (equivalently `NaN` in the
DataFrame column); `time_minutes` is `none` also when `pd.to_numeric`
coerces a non-numeric value to `NaN`. -/
structure RawEntry where
  date : Option String
  app : Option String
  time_minutes : Option ℚ
  category : Option String
  pickups : Option ℤ
deriving DecidableEq, Repr

/-- One row of the cleaned DataFrame returned by `process_entries`. -/
structure Record where
  date : Date
  app : String
  time_minutes : ℚ
  category : String
  pickups : ℤ
  time_hours : ℚ
deriving DecidableEq, Repr

instance exceptDecEq {ε α : Type} [DecidableEq ε] [DecidableEq α] :
    DecidableEq (Except ε α) := fun x y =>
  match x, y with
  | Except.ok a, Except.ok b =>
    if h : a = b then isTrue (by rw [h]) else isFalse (fun hh => h (Except.ok.inj hh))
  | Except.error a, Except.error b =>
    if h : a = b then isTrue (by rw [h]) else isFalse (fun hh => h (Except.error.inj hh))
  | Except.ok _, Except.error _ => isFalse (fun hh => Except.noConfusion hh)
  | Except.error _, Except.ok _ => isFalse (fun hh => Except.noConfusion hh)

/-- Error constant standing for the `ValueError` raised by
`pd.to_datetime` (whose `errors` parameter is left at `'raise'`). -/
def dateErrorMsg : String := "ValueError: could not parse date"

/-- The date pass of `process_entries`: `pd.to_datetime(df['date'])`.
A missing value gives `NaT` (later dropped); an unparseable string raises. -/
def parseAllDates : List RawEntry → Except String (List (Option Date))
  | [] => Except.ok []
  | e :: es =>
    match e.date with
    | none => (parseAllDates es).map (fun ds => none :: ds)
    | some s =>
      match parseDate s with
      | some d => (parseAllDates es).map (fun ds => some d :: ds)
      | none => Except.error dateErrorMsg

/-- The per-row categorization lambda of `process_entries`: the provided
category when present, else `auto_categorize_app(row['app'])`.  When the
app is missing (`NaN`) the source calls `.lower()` on a float and raises. -/
def rowCategory (e : RawEntry) : Except String String :=
  match e.category with
  | some c => Except.ok c
  | none =>
    match e.app with
    | some a => Except.ok (auto_categorize_app a)
    | none => Except.error "AttributeError: float object has no attribute lower"

def rowCategories : List RawEntry → Except String (List String)
  | [] => Except.ok []
  | e :: es =>
    match rowCategory e with
    | Except.error msg => Except.error msg
    | Except.ok c => (rowCategories es).map (fun cs => c :: cs)

/-- Whether `df['time_minutes'] > 0` holds for the row (`NaN > 0` is false). -/
def timePos (e : RawEntry) : Bool :=
  match e.time_minutes with
  | some t => decide (0 < t)
  | none => false

/-- Assemble one cleaned row: fill missing pickups with 0, set pickups to 1
when time is positive and pickups is 0, derive `time_hours`, and drop the
row (`dropna`) when date, app or numeric time is missing. -/
def buildRow (e : RawEntry) (d : Option Date) (c : String) : Option Record :=
  let p0 : ℤ := e.pickups.getD 0
  let pk : ℤ := if timePos e && decide (p0 = 0) then 1 else p0
  match d, e.app, e.time_minutes with
  | some dd, some a, some t => some ⟨dd, a, t, c, pk, t / 60⟩
  | _, _, _ => none

def buildRows : List RawEntry → List (Option Date) → List String → List Record
  | e :: es, d :: ds, c :: cs =>
    (match buildRow e d c with
     | some r => r :: buildRows es ds cs
     | none => buildRows es ds cs)
  | _, _, _ => []

/-- `process_entries` of `processing.py`.  The result is `Except` because
the date pass and the categorization pass can raise. -/
def process_entries (entries : List RawEntry) : Except String (List Record) :=
  if entries.isEmpty then Except.ok []
  else do
    let ds ← parseAllDates entries
    let cs ← rowCategories entries
    Except.ok (buildRows entries ds cs)

/-- One element of `daily_totals`. -/
structure DailyTotal where
  date : String
  time_hours : ℚ
  pickups : ℤ
deriving DecidableEq, Repr

/-- One element of `weekly_totals`; `period` is the week bucket of
`dt.to_period('W')` (see `weekIndex`). -/
structure WeeklyTotal where
  period : ℕ
  time_hours : ℚ
  pickups : ℤ
deriving DecidableEq, Repr

/-- The dict returned by `calculate_metrics`.  `top_apps` is an `Option`
because the zero-state branch of the source returns a dict without a
`top_apps` key at all; `none` models that absent key. -/
structure Metrics where
  total_screen_time_hours : ℚ
  total_screen_time_minutes : ℤ
  doomscroll_hours : ℚ
  total_pickups : ℤ
  avg_pickups_per_day : ℚ
  days_tracked : ℕ
  category_breakdown : List (String × ℚ)
  daily_totals : List DailyTotal
  weekly_totals : List WeeklyTotal
  top_apps : Option (List (String × ℚ))
deriving DecidableEq, Repr

/-- `df['time_minutes'].sum()`. -/
def totalMinutesOf (recs : List Record) : ℚ :=
  (recs.map Record.time_minutes).sum

/-- `df[df['category'] == 'Social Media']['time_hours'].sum()`. -/
def doomHoursOf (recs : List Record) : ℚ :=
  ((recs.filter (fun r => decide (r.category = "Social Media"))).map Record.time_hours).sum

/-- `df['pickups'].sum()`. -/
def totalPickupsOf (recs : List Record) : ℤ :=
  (recs.map Record.pickups).sum

/-- The distinct dates of the frame; its length is `df['date'].nunique()`. -/
def datesOf (recs : List Record) : List Date :=
  (recs.map Record.date).dedup

/-- The distinct categories, the key set of `df.groupby('category')`. -/
def catsOf (recs : List Record) : List String :=
  (recs.map Record.category).dedup

/-- The `time_hours` total of one category group. -/
def catHoursOf (recs : List Record) (c : String) : ℚ :=
  ((recs.filter (fun r => decide (r.category = c))).map Record.time_hours).sum

/-- `daily_totals`: grouped by date, ascending, date formatted `YYYY-MM-DD`. -/
def dailyTotalsOf (recs : List Record) : List DailyTotal :=
  (List.insertionSort (fun a b => dateKey a ≤ dateKey b) (datesOf recs)).map fun d =>
    { date := formatDate d
      time_hours := ((recs.filter (fun r => decide (r.date = d))).map Record.time_hours).sum
      pickups := ((recs.filter (fun r => decide (r.date = d))).map Record.pickups).sum }

/-- `weekly_totals`: grouped by week period, ascending. -/
def weeklyTotalsOf (recs : List Record) : List WeeklyTotal :=
  (List.insertionSort (fun a b => a ≤ b) ((recs.map (fun r => weekIndex r.date)).dedup)).map fun w =>
    { period := w
      time_hours := ((recs.filter (fun r => decide (weekIndex r.date = w))).map Record.time_hours).sum
      pickups := ((recs.filter (fun r => decide (weekIndex r.date = w))).map Record.pickups).sum }

/-- `df.groupby('app')['time_hours'].sum().sort_values(ascending=False).head(10)`. -/
def topAppsOf (recs : List Record) : List (String × ℚ) :=
  (List.insertionSort (fun p q : String × ℚ => q.2 ≤ p.2)
    (((recs.map Record.app).dedup).map fun a =>
      (a, ((recs.filter (fun r => decide (r.app = a))).map Record.time_hours).sum))).take 10

/-- `calculate_metrics` of `processing.py`. -/
def calculate_metrics (recs : List Record) : Metrics :=
  if recs.isEmpty then
    { total_screen_time_hours := 0
      total_screen_time_minutes := 0
      doomscroll_hours := 0
      total_pickups := 0
      avg_pickups_per_day := 0
      days_tracked := 0
      category_breakdown := []
      daily_totals := []
      weekly_totals := []
      top_apps := none }
  else
    { total_screen_time_hours := round2 (totalMinutesOf recs / 60)
      total_screen_time_minutes := intTrunc (totalMinutesOf recs)
      doomscroll_hours := round2 (doomHoursOf recs)
      total_pickups := totalPickupsOf recs
      avg_pickups_per_day :=
        round2 (if 0 < (datesOf recs).length
                then (totalPickupsOf recs : ℚ) / (datesOf recs).length else 0)
      days_tracked := (datesOf recs).length
      category_breakdown := (catsOf recs).map fun c => (c, round2 (catHoursOf recs c))
      daily_totals := dailyTotalsOf recs
      weekly_totals := weeklyTotalsOf recs
      top_apps := some ((topAppsOf recs).map fun p => (p.1, round2 p.2)) }

/-- The `breakdown` dict of a chronic score (empty in the no-data case,
modelled by `Option` on the `ChronicScore` side). -/
structure Breakdown where
  time_score : ℕ
  doomscroll_score : ℕ
  pickup_score : ℕ
  avg_hours_per_day : ℚ
  doomscroll_percentage : ℚ
deriving DecidableEq, Repr

/-- The dict returned by `calculate_chronic_score`. -/
structure ChronicScore where
  score : ℕ
  level : String
  description : String
  breakdown : Option Breakdown
deriving DecidableEq, Repr

/-- Factor 1 of the scorer: daily screen time, 0-40 points. -/
def timeScoreOf (avg : ℚ) : ℕ :=
  if avg < 2 then 0 else if avg < 4 then 10 else if avg < 6 then 20
  else if avg < 8 then 30 else 40

/-- Factor 2 of the scorer: doomscroll percentage, 0-30 points. -/
def doomScoreOf (pct : ℚ) : ℕ :=
  if pct < 20 then 0 else if pct < 40 then 10 else if pct < 60 then 20 else 30

/-- Factor 3 of the scorer: average pickups per day, 0-30 points. -/
def pickupScoreOf (p : ℚ) : ℕ :=
  if p < 50 then 0 else if p < 100 then 10 else if p < 150 then 20 else 30

/-- The scorer's `avg_hours_per_day` (only evaluated when `days_tracked` is
nonzero). -/
def avgHoursPerDay (m : Metrics) : ℚ :=
  m.total_screen_time_hours / m.days_tracked

/-- The scorer's `doomscroll_ratio` percentage. -/
def doomPct (m : Metrics) : ℚ :=
  if 0 < m.total_screen_time_hours
  then m.doomscroll_hours / m.total_screen_time_hours * 100 else 0

/-- The level name by total score. -/
def levelOf (t : ℕ) : String :=
  if t < 20 then "Casually Online"
  else if t < 40 then "Moderately Online"
  else if t < 60 then "Pretty Online"
  else if t < 80 then "Very Online"
  else "Chronically Online"

/-- The level description by total score. -/
def levelDescOf (t : ℕ) : String :=
  if t < 20 then "You have a healthy relationship with your devices! Keep it up."
  else if t < 40 then
    "You\x27re spending a reasonable amount of time online. Some small adjustments could help."
  else if t < 60 then
    "You\x27re spending quite a bit of time on your devices. Consider setting some boundaries."
  else if t < 80 then
    "You\x27re spending a lot of time online. It might be time to reassess your digital habits."
  else
    "You\x27re spending excessive time online. Consider implementing significant changes to your digital routine."

/-- `calculate_chronic_score` of `processing.py`. -/
def calculate_chronic_score (m : Metrics) : ChronicScore :=
  if m.days_tracked = 0 then
    { score := 0, level := "Unknown", description := "No data available", breakdown := none }
  else
    { score := timeScoreOf (avgHoursPerDay m) + doomScoreOf (doomPct m)
        + pickupScoreOf m.avg_pickups_per_day
      level := levelOf (timeScoreOf (avgHoursPerDay m) + doomScoreOf (doomPct m)
        + pickupScoreOf m.avg_pickups_per_day)
      description := levelDescOf (timeScoreOf (avgHoursPerDay m) + doomScoreOf (doomPct m)
        + pickupScoreOf m.avg_pickups_per_day)
      breakdown := some
        { time_score := timeScoreOf (avgHoursPerDay m)
          doomscroll_score := doomScoreOf (doomPct m)
          pickup_score := pickupScoreOf m.avg_pickups_per_day
          avg_hours_per_day := round2 (avgHoursPerDay m)
          doomscroll_percentage := round1 (doomPct m) } }

/-- One tip dict of `generate_tips`. -/
structure Tip where
  title : String
  description : String
  priority : String
  category : String
deriving DecidableEq, Repr

/-- `priority_order.get(priority, 3)` of the final sort in `generate_tips`. -/
def tipRank (p : String) : ℕ :=
  if p = "high" then 0 else if p = "medium" then 1 else if p = "low" then 2 else 3

/-- The sort key order of the final `tips.sort`. -/
def tipLe (a b : Tip) : Prop := tipRank a.priority ≤ tipRank b.priority

instance : DecidableRel tipLe := fun _ _ => Nat.decLe _ _

instance : IsTotal Tip tipLe := ⟨fun _ _ => Nat.le_total _ _⟩

instance : IsTrans Tip tipLe := ⟨fun _ _ _ => Nat.le_trans⟩

/-- The tip generator's `avg_hours_per_day` (guarded by `days_tracked > 0`,
unlike the scorer's). -/
def tipsAvgHours (m : Metrics) : ℚ :=
  if 0 < m.days_tracked then m.total_screen_time_hours / m.days_tracked else 0

/-- The tip generator's `doomscroll_percentage`. -/
def tipsDoomPct (m : Metrics) : ℚ :=
  if 0 < m.total_screen_time_hours
  then m.doomscroll_hours / m.total_screen_time_hours * 100 else 0

/-- `metrics.get('category_breakdown', {}).get(key, 0)`. -/
def lookupQ (l : List (String × ℚ)) (k : String) : ℚ :=
  match l.find? (fun p => p.1 == k) with
  | some p => p.2
  | none => 0

def tip1 (avgH : ℚ) : Tip :=
  { title := "Set Daily Screen Time Limits"
    description := "You\x27re averaging " ++ fmt1 avgH ++ " hours per day. Try setting a daily limit (e.g., 4-5 hours) and use your phone\x27s built-in screen time controls to enforce it."
    priority := "high"
    category := "general" }

def tip2 (pct hrs : ℚ) : Tip :=
  { title := "Reduce Social Media Consumption"
    description := "Social media accounts for " ++ fmt0 pct ++ "% of your screen time (" ++ fmt1 hrs ++ " hours). Try: (1) Delete apps from your home screen, (2) Set app timers, (3) Use grayscale mode to reduce appeal."
    priority := "high"
    category := "social_media" }

def tip3 (p : ℚ) : Tip :=
  { title := "Reduce Phone Pickups"
    description := "You\x27re picking up your phone " ++ fmt0 p ++ " times per day on average. Try: (1) Turn off non-essential notifications, (2) Keep your phone in another room, (3) Use \x27Do Not Disturb\x27 during focused work."
    priority := "high"
    category := "pickups" }

def tip4 (app : String) (hrs : ℚ) : Tip :=
  { title := "Limit Time on " ++ app
    description := "You spend " ++ fmt1 hrs ++ " hours per day on " ++ app ++ ". Consider setting a daily limit for this app specifically, or try replacing some of this time with offline activities."
    priority := "medium"
    category := "specific_app" }

def tip5 : Tip :=
  { title := "Create Phone-Free Zones"
    description := "Designate certain times or places as phone-free: (1) First hour after waking, (2) During meals, (3) One hour before bed. This helps break the constant checking habit."
    priority := "medium"
    category := "boundaries" }

def tip6 (social productive : ℚ) : Tip :=
  { title := "Balance Entertainment with Productivity"
    description := "You spend " ++ fmt1 social ++ " hours on social media vs " ++ fmt1 productive ++ " hours on productivity. Try the \x272-minute rule\x27: when you open a social app, spend 2 minutes on a productive task first."
    priority := "medium"
    category := "balance" }

def tip7 : Tip :=
  { title := "Practice Mindful Phone Use"
    description := "Before picking up your phone, ask yourself: \x27What do I need to do?\x27 If you can\x27t answer, put it down. This simple pause can prevent mindless scrolling."
    priority := "low"
    category := "mindfulness" }

def tip8 : Tip :=
  { title := "Review Your Progress Weekly"
    description := "Set aside 10 minutes each week to review your screen time data. Notice patterns: Are you using your phone more when stressed? Bored? Use this awareness to make intentional changes."
    priority := "low"
    category := "tracking" }

/-- Tips 1-3 of the generation pass (all high priority). -/
def hiTips (m : Metrics) : List Tip :=
  (if 6 ≤ tipsAvgHours m then [tip1 (tipsAvgHours m)] else []) ++
  (if 40 ≤ tipsDoomPct m then [tip2 (tipsDoomPct m) m.doomscroll_hours] else []) ++
  (if 100 ≤ m.avg_pickups_per_day then [tip3 m.avg_pickups_per_day] else [])

/-- Tips 4-6 of the generation pass (all medium priority).  Tip 4 fires only
when the metrics carry a nonempty `top_apps` dict whose first entry has at
least 2 hours. -/
def midTips (m : Metrics) : List Tip :=
  (match m.top_apps with
   | some (p :: _) => if 2 ≤ p.2 then [tip4 p.1 p.2] else []
   | _ => []) ++
  (if 4 ≤ tipsAvgHours m then [tip5] else []) ++
  (if 0 < lookupQ m.category_breakdown "Social Media" ∧
      0 < lookupQ m.category_breakdown "Productivity" ∧
      lookupQ m.category_breakdown "Productivity" * 2 <
        lookupQ m.category_breakdown "Social Media"
   then [tip6 (lookupQ m.category_breakdown "Social Media")
          (lookupQ m.category_breakdown "Productivity")] else [])

/-- Tips 7-8 of the generation pass (always appended, low priority). -/
def lowTips : List Tip := [tip7, tip8]

/-- The tip list in generation order, before the final sort. -/
def rawTips (m : Metrics) : List Tip := hiTips m ++ midTips m ++ lowTips

/-- `generate_tips` of `processing.py`: empty on an empty frame, else the
generated tips stably sorted by priority rank (`list.sort` with a key
function is a stable sort; `List.insertionSort` realises it). -/
def generate_tips (m : Metrics) (df : List Record) : List Tip :=
  if df.isEmpty then [] else List.insertionSort tipLe (rawTips m)

/-- The dict returned by `analyze_entries`. -/
structure AnalysisResult where
  metrics : Metrics
  chronic_score : ChronicScore
  tips : List Tip
  processed_entries_count : ℕ
deriving DecidableEq, Repr

/-- `analyze_entries` of `processing.py`: the full pipeline. -/
def analyze_entries (entries : List RawEntry) : Except String AnalysisResult := do
  let df ← process_entries entries
  let metrics := calculate_metrics df
  let chronic := calculate_chronic_score metrics
  let tips := generate_tips metrics df
  Except.ok { metrics := metrics, chronic_score := chronic, tips := tips,
              processed_entries_count := df.length }


/-! Concrete inputs used by the claim theorems and witnesses below. -/

def c1BadEntry : RawEntry := ⟨some "not-a-date", some "Instagram", some 30, none, some 5⟩

def c1GoodEntry : RawEntry := ⟨some "2024-01-15", some "Instagram", some 30, none, some 5⟩

def c2Entry : RawEntry := ⟨some "2024-01-15", some "Instagram", some 30, none, some 0⟩

def c3ZeroMetrics : Metrics := ⟨0, 0, 0, 0, 0, 0, [], [], [], none⟩

def c3ZeroResult : AnalysisResult :=
  ⟨c3ZeroMetrics, ⟨0, "Unknown", "No data available", none⟩, [], 0⟩

def c5Rec : Record := ⟨⟨2024, 1, 15⟩, "SomeApp", 181 / 2, "Other", 1, 181 / 2 / 60⟩

def c6Entry : RawEntry := ⟨some "2024-01-15", some "CustomApp", some 45, some "Bogus", some 5⟩

def c7MA : Metrics := ⟨2, 120, 0, 0, 0, 1, [], [], [], none⟩

def c7MB : Metrics := ⟨10, 600, 0, 0, 0, 1, [], [], [], none⟩

def c8Rec : Record := ⟨⟨2024, 1, 15⟩, "Instagram", 30, "Social Media", 5, 30 / 60⟩

def c9Rec : Record := ⟨⟨2024, 1, 15⟩, "Instagram", 30, "Social Media", 5, 30 / 60⟩


lemma process_entries_singleton (e : RawEntry) (s : String) (d : Date) (a : String) (t : ℚ)
    (hd : e.date = some s) (hp : parseDate s = some d) (ha : e.app = some a)
    (ht : e.time_minutes = some t) :
    process_entries [e] = Except.ok
      [{ date := d, app := a, time_minutes := t,
         category := match e.category with
           | some c => c
           | none => auto_categorize_app a,
         pickups := if 0 < t ∧ e.pickups.getD 0 = 0 then 1 else e.pickups.getD 0,
         time_hours := t / 60 }] := by
  rcases hc : e.category with _ | c <;>
    simp [process_entries, parseAllDates, hd, hp, rowCategories, rowCategory, hc, ha,
      buildRows, buildRow, timePos, ht, Bool.and_eq_true, decide_eq_true_eq,
      Except.map, Except.bind, bind]

lemma findCategory_mem (s : String) :
    ∀ (l : List (String × List String)) (c : String),
      findCategory l s = some c → c ∈ l.map Prod.fst := by
  intro l
  induction l with
  | nil => intro c h; simp [findCategory] at h
  | cons hd tl ih =>
    intro c h
    rcases hd with ⟨cat, pats⟩
    by_cases hb : pats.any (fun p => strContains s p)
    · simp [findCategory, hb] at h
      simp [h]
    · simp [findCategory, hb] at h
      exact List.mem_cons_of_mem _ (ih c h)

/-- C1: one malformed date string makes `process_entries` raise. -/
theorem c1_bad_date_raises :
    process_entries [c1BadEntry, c1GoodEntry] = Except.error dateErrorMsg ∧
    process_entries [c1GoodEntry] =
      Except.ok [⟨⟨2024, 1, 15⟩, "Instagram", 30, "Social Media", 5, 30 / 60⟩] :=
  ⟨rfl, rfl⟩

/-- C2 counterexample. -/
theorem c2_explicit_zero_not_kept :
    (process_entries [c2Entry]).map (List.map Record.pickups) ≠ Except.ok [0] := by decide

/-- C2 amended. -/
theorem c2_pickups_amended (e : RawEntry) (s : String) (d : Date) (a : String) (t : ℚ)
    (hd : e.date = some s) (hp : parseDate s = some d) (ha : e.app = some a)
    (ht : e.time_minutes = some t) :
    (process_entries [e]).map (List.map Record.pickups) =
      Except.ok [if 0 < t ∧ e.pickups.getD 0 = 0 then 1 else e.pickups.getD 0] := by
  rw [process_entries_singleton e s d a t hd hp ha ht]; rfl

/-- C2 witness. -/
theorem c2_pickups_amended_witness :
    (process_entries [c2Entry]).map (List.map Record.pickups) = Except.ok [1] := by
  rw [c2_pickups_amended c2Entry "2024-01-15" ⟨2024, 1, 15⟩ "Instagram" 30 rfl rfl rfl rfl]
  decide

/-- C3 counterexample. -/
theorem c3_top_apps_key_absent :
    (analyze_entries []).map (fun r => r.metrics.top_apps) ≠ Except.ok (some []) := by decide

/-- C3 amended. -/
theorem c3_empty_analysis : analyze_entries [] = Except.ok c3ZeroResult := rfl

/-- C5 counterexample. -/
theorem c5_exact_totals_fail :
    ¬ (((calculate_metrics [c5Rec]).total_screen_time_minutes : ℚ) =
         ([c5Rec].map Record.time_minutes).sum ∧
       (calculate_metrics [c5Rec]).total_screen_time_hours =
         ([c5Rec].map Record.time_minutes).sum / 60) := by
  rintro ⟨h1, -⟩
  rw [show (calculate_metrics [c5Rec]).total_screen_time_minutes = 90 from by
    norm_num [calculate_metrics, totalMinutesOf, c5Rec, intTrunc]] at h1
  norm_num [c5Rec] at h1

/-- C5 amended. -/
theorem c5_totals_amended (recs : List Record) (h : recs ≠ []) :
    (calculate_metrics recs).total_screen_time_minutes =
      intTrunc ((recs.map Record.time_minutes).sum) ∧
    (calculate_metrics recs).total_screen_time_hours =
      round2 ((recs.map Record.time_minutes).sum / 60) := by
  have he : recs.isEmpty = false := by
    cases recs with
    | nil => exact absurd rfl h
    | cons a l => rfl
  constructor <;> simp [calculate_metrics, he, totalMinutesOf]

/-- C5 witness. -/
theorem c5_totals_amended_witness :
    (calculate_metrics [c5Rec]).total_screen_time_minutes =
      intTrunc (([c5Rec].map Record.time_minutes).sum) :=
  (c5_totals_amended [c5Rec] (by simp)).1

/-- C6 counterexample. -/
theorem c6_freeform_category_kept :
    (process_entries [c6Entry]).map (List.map Record.category) = Except.ok ["Bogus"] ∧
    "Bogus" ∉ validCategories := ⟨by decide, by decide⟩

/-- C6 amended. -/
theorem c6_category_amended :
    (∀ a : String, auto_categorize_app a ∈ validCategories) ∧
    ∀ (e : RawEntry) (s : String) (d : Date) (a : String) (t : ℚ) (c : String),
      e.date = some s → parseDate s = some d → e.app = some a →
      e.time_minutes = some t → e.category = some c →
      (process_entries [e]).map (List.map Record.category) = Except.ok [c] := by
  constructor
  · intro a
    unfold auto_categorize_app validCategories
    cases hf : findCategory CATEGORY_PATTERNS (lowerStr a) with
    | none => simp
    | some cat =>
      have hm := findCategory_mem (lowerStr a) CATEGORY_PATTERNS cat hf
      exact List.mem_append_left _ hm
  · intro e s d a t c hd hp ha ht hc
    rw [process_entries_singleton e s d a t hd hp ha ht]
    simp [hc, Except.map]

/-- C6 witness. -/
theorem c6_category_amended_witness :
    auto_categorize_app "UnknownApp" ∈ validCategories :=
  c6_category_amended.1 "UnknownApp"


lemma findCategory_spec (s : String) (l : List (String × List String)) :
    (findCategory l s = none ∧ ∀ cp ∈ l, ¬ ∃ p ∈ cp.2, strContains s p = true) ∨
    (∃ pre cat pats suf, l = pre ++ (cat, pats) :: suf ∧
      findCategory l s = some cat ∧ (∃ p ∈ pats, strContains s p = true) ∧
      ∀ cp ∈ pre, ¬ ∃ p ∈ cp.2, strContains s p = true) := by
  induction l with
  | nil => exact Or.inl ⟨rfl, by simp⟩
  | cons hd tl ih =>
    rcases hd with ⟨cat, pats⟩
    by_cases hb : pats.any (fun p => strContains s p)
    · right
      refine ⟨[], cat, pats, tl, by simp, by simp [findCategory, hb], ?_, by simp⟩
      simpa [List.any_eq_true] using hb
    · rcases ih with ⟨hn, hall⟩ | ⟨pre, cat2, pats2, suf, heq, hres, hhit, hpre⟩
      · left
        refine ⟨by simp [findCategory, hb, hn], ?_⟩
        intro cp hcp
        rcases List.mem_cons.mp hcp with h | h
        · subst h; simpa [List.any_eq_true] using hb
        · exact hall cp h
      · right
        refine ⟨(cat, pats) :: pre, cat2, pats2, suf, by simp [heq], ?_, hhit, ?_⟩
        · simp [findCategory, hb, hres]
        · intro cp hcp
          rcases List.mem_cons.mp hcp with h | h
          · subst h; simpa [List.any_eq_true] using hb
          · exact hpre cp h

/-- C4: first matching category in declared order wins, else Other. -/
theorem c4_first_match_wins :
    CATEGORY_PATTERNS.map Prod.fst =
      ["Social Media", "Productivity", "Entertainment", "Gaming", "News", "Shopping",
       "Health & Fitness", "Education"] ∧
    ∀ name : String,
      (auto_categorize_app name = "Other" ∧
        ∀ cp ∈ CATEGORY_PATTERNS, ¬ ∃ p ∈ cp.2, strContains (lowerStr name) p = true) ∨
      (∃ pre cat pats suf, CATEGORY_PATTERNS = pre ++ (cat, pats) :: suf ∧
        auto_categorize_app name = cat ∧ (∃ p ∈ pats, strContains (lowerStr name) p = true) ∧
        ∀ cp ∈ pre, ¬ ∃ p ∈ cp.2, strContains (lowerStr name) p = true) := by
  refine ⟨rfl, fun name => ?_⟩
  rcases findCategory_spec (lowerStr name) CATEGORY_PATTERNS with ⟨hn, hall⟩ |
    ⟨pre, cat, pats, suf, heq, hres, hhit, hpre⟩
  · exact Or.inl ⟨by simp [auto_categorize_app, hn], hall⟩
  · exact Or.inr ⟨pre, cat, pats, suf, heq, by simp [auto_categorize_app, hres], hhit, hpre⟩

lemma timeScoreOf_mono {a b : ℚ} (h : a ≤ b) : timeScoreOf a ≤ timeScoreOf b := by
  unfold timeScoreOf
  split_ifs <;> first | omega | linarith

lemma doomScoreOf_mono {a b : ℚ} (h : a ≤ b) : doomScoreOf a ≤ doomScoreOf b := by
  unfold doomScoreOf
  split_ifs <;> first | omega | linarith

lemma pickupScoreOf_mono {a b : ℚ} (h : a ≤ b) : pickupScoreOf a ≤ pickupScoreOf b := by
  unfold pickupScoreOf
  split_ifs <;> first | omega | linarith

lemma chronic_score_pos (m : Metrics) (h : m.days_tracked ≠ 0) :
    (calculate_chronic_score m).score =
      timeScoreOf (avgHoursPerDay m) + doomScoreOf (doomPct m) +
        pickupScoreOf m.avg_pickups_per_day := by
  simp [calculate_chronic_score, h]

/-- C7: monotone in each factor. -/
theorem c7_score_monotone (m1 m2 : Metrics) (h1 : 0 < m1.days_tracked)
    (h2 : 0 < m2.days_tracked) :
    ((avgHoursPerDay m1 ≤ avgHoursPerDay m2 ∧ doomPct m1 = doomPct m2 ∧
        m1.avg_pickups_per_day = m2.avg_pickups_per_day) →
      (calculate_chronic_score m1).score ≤ (calculate_chronic_score m2).score) ∧
    ((avgHoursPerDay m1 = avgHoursPerDay m2 ∧ doomPct m1 ≤ doomPct m2 ∧
        m1.avg_pickups_per_day = m2.avg_pickups_per_day) →
      (calculate_chronic_score m1).score ≤ (calculate_chronic_score m2).score) ∧
    ((avgHoursPerDay m1 = avgHoursPerDay m2 ∧ doomPct m1 = doomPct m2 ∧
        m1.avg_pickups_per_day ≤ m2.avg_pickups_per_day) →
      (calculate_chronic_score m1).score ≤ (calculate_chronic_score m2).score) := by
  rw [chronic_score_pos m1 h1.ne', chronic_score_pos m2 h2.ne']
  refine ⟨?_, ?_, ?_⟩ <;> rintro ⟨ha, hb, hc⟩
  · have := timeScoreOf_mono ha
    rw [hb, hc]
    omega
  · have := doomScoreOf_mono hb
    rw [ha, hc]
    omega
  · have := pickupScoreOf_mono hc
    rw [ha, hb]
    omega

/-- C7 witness. -/
theorem c7_score_monotone_witness :
    (calculate_chronic_score c7MA).score ≤ (calculate_chronic_score c7MB).score :=
  (c7_score_monotone c7MA c7MB (by simp [c7MA]) (by simp [c7MB])).1
    ⟨by norm_num [avgHoursPerDay, c7MA, c7MB],
     by norm_num [doomPct, c7MA, c7MB],
     by norm_num [c7MA, c7MB]⟩

lemma timeScoreOf_cases (q : ℚ) : timeScoreOf q ∈ ([0, 10, 20, 30, 40] : List ℕ) := by
  unfold timeScoreOf; split_ifs <;> simp

lemma doomScoreOf_cases (q : ℚ) : doomScoreOf q ∈ ([0, 10, 20, 30] : List ℕ) := by
  unfold doomScoreOf; split_ifs <;> simp

lemma pickupScoreOf_cases (q : ℚ) : pickupScoreOf q ∈ ([0, 10, 20, 30] : List ℕ) := by
  unfold pickupScoreOf; split_ifs <;> simp

lemma timeScoreOf_le (q : ℚ) : timeScoreOf q ≤ 40 := by
  unfold timeScoreOf; split_ifs <;> omega

lemma doomScoreOf_le (q : ℚ) : doomScoreOf q ≤ 30 := by
  unfold doomScoreOf; split_ifs <;> omega

lemma pickupScoreOf_le (q : ℚ) : pickupScoreOf q ≤ 30 := by
  unfold pickupScoreOf; split_ifs <;> omega

lemma timeScoreOf_dvd (q : ℚ) : 10 ∣ timeScoreOf q := by
  unfold timeScoreOf; split_ifs <;> decide

lemma doomScoreOf_dvd (q : ℚ) : 10 ∣ doomScoreOf q := by
  unfold doomScoreOf; split_ifs <;> decide

lemma pickupScoreOf_dvd (q : ℚ) : 10 ∣ pickupScoreOf q := by
  unfold pickupScoreOf; split_ifs <;> decide

/-- C10: shape of the chronic score. -/
theorem c10_score_shape (m : Metrics) :
    (calculate_chronic_score m).score % 10 = 0 ∧
    (calculate_chronic_score m).score ≤ 100 ∧
    (m.days_tracked = 0 → (calculate_chronic_score m).score = 0) ∧
    (0 < m.days_tracked → ∃ b, (calculate_chronic_score m).breakdown = some b ∧
      b.time_score ∈ ([0, 10, 20, 30, 40] : List ℕ) ∧
      b.doomscroll_score ∈ ([0, 10, 20, 30] : List ℕ) ∧
      b.pickup_score ∈ ([0, 10, 20, 30] : List ℕ) ∧
      (calculate_chronic_score m).score = b.time_score + b.doomscroll_score + b.pickup_score) := by
  by_cases h : m.days_tracked = 0
  · simp [calculate_chronic_score, h]
  · have e := chronic_score_pos m h
    have hb : (calculate_chronic_score m).breakdown = some
        ⟨timeScoreOf (avgHoursPerDay m), doomScoreOf (doomPct m),
         pickupScoreOf m.avg_pickups_per_day, round2 (avgHoursPerDay m),
         round1 (doomPct m)⟩ := by
      simp [calculate_chronic_score, h]
    have t1 := timeScoreOf_le (avgHoursPerDay m)
    have t2 := doomScoreOf_le (doomPct m)
    have t3 := pickupScoreOf_le m.avg_pickups_per_day
    have d1 := timeScoreOf_dvd (avgHoursPerDay m)
    have d2 := doomScoreOf_dvd (doomPct m)
    have d3 := pickupScoreOf_dvd m.avg_pickups_per_day
    refine ⟨by rw [e]; omega, by rw [e]; omega, fun hz => absurd hz h,
      fun _ => ⟨_, hb, timeScoreOf_cases _, doomScoreOf_cases _, pickupScoreOf_cases _, e⟩⟩

/-- C10 witness. -/
theorem c10_score_shape_witness : (calculate_chronic_score c7MA).score ≤ 100 :=
  (c10_score_shape c7MA).2.1


lemma mem_ite_list {c : Prop} [Decidable c] {t x : Tip}
    (h : x ∈ (if c then [t] else [])) : x = t := by
  by_cases hc : c
  · rw [if_pos hc] at h; exact List.mem_singleton.mp h
  · rw [if_neg hc] at h; exact absurd h (List.not_mem_nil x)

lemma mem_hiTips {m : Metrics} {x : Tip} (h : x ∈ hiTips m) : x.priority = "high" := by
  simp only [hiTips, List.mem_append] at h
  rcases h with (h | h) | h <;> rw [mem_ite_list h] <;> rfl

lemma mem_midTips {m : Metrics} {x : Tip} (h : x ∈ midTips m) : x.priority = "medium" := by
  simp only [midTips, List.mem_append] at h
  rcases h with (h | h) | h
  · rcases ht : m.top_apps with _ | l
    · rw [ht] at h; simp at h
    · rcases l with _ | ⟨p, rest⟩
      · rw [ht] at h; simp at h
      · rw [ht] at h
        rw [mem_ite_list h]; rfl
  · rw [mem_ite_list h]; rfl
  · rw [mem_ite_list h]; rfl

lemma mem_lowTips {x : Tip} (h : x ∈ lowTips) : x.priority = "low" := by
  simp only [lowTips, List.mem_cons, List.mem_singleton, List.not_mem_nil, or_false] at h
  rcases h with rfl | rfl <;> rfl

lemma pairwise_const_rank (l : List Tip) (k : ℕ)
    (h : ∀ x ∈ l, tipRank x.priority = k) : l.Pairwise tipLe := by
  induction l with
  | nil => exact List.Pairwise.nil
  | cons a t ih =>
    refine List.Pairwise.cons ?_ (ih fun x hx => h x (List.mem_cons_of_mem _ hx))
    intro b hb
    show tipRank a.priority ≤ tipRank b.priority
    rw [h a (List.mem_cons_self _ _), h b (List.mem_cons_of_mem _ hb)]

lemma sorted_rawTips (m : Metrics) : List.Sorted tipLe (rawTips m) := by
  have hhi : List.Pairwise tipLe (hiTips m) :=
    pairwise_const_rank _ 0 fun x hx => by rw [mem_hiTips hx]; decide
  have hmid : List.Pairwise tipLe (midTips m) :=
    pairwise_const_rank _ 1 fun x hx => by rw [mem_midTips hx]; decide
  have hlow : List.Pairwise tipLe lowTips :=
    pairwise_const_rank _ 2 fun x hx => by rw [mem_lowTips hx]; decide
  refine (List.pairwise_append).mpr ⟨(List.pairwise_append).mpr ⟨hhi, hmid, ?_⟩, hlow, ?_⟩
  · intro a ha b hb
    show tipRank a.priority ≤ tipRank b.priority
    rw [mem_hiTips ha, mem_midTips hb]
    decide
  · intro a ha b hb
    show tipRank a.priority ≤ tipRank b.priority
    rw [mem_lowTips hb]
    rcases List.mem_append.mp ha with h | h
    · rw [mem_hiTips h]; decide
    · rw [mem_midTips h]; decide

/-- C8: tips sorted by priority, generation order preserved. -/
theorem c8_tips_sorted (m : Metrics) (recs : List Record) (h : recs ≠ []) :
    List.Sorted tipLe (generate_tips m recs) ∧ generate_tips m recs = rawTips m := by
  have he : recs.isEmpty = false := by
    cases recs with
    | nil => exact absurd rfl h
    | cons a l => rfl
  have hs := sorted_rawTips m
  have hgen : generate_tips m recs = List.insertionSort tipLe (rawTips m) := by
    simp [generate_tips, he]
  rw [hgen, hs.insertionSort_eq]
  exact ⟨hs, rfl⟩

/-- C8 witness. -/
theorem c8_tips_sorted_witness : generate_tips c7MA [c8Rec] = rawTips c7MA :=
  (c8_tips_sorted c7MA [c8Rec] (by simp)).2


lemma sum_map_add' (l : List String) (g h : String → ℚ) :
    (l.map (fun x => g x + h x)).sum = (l.map g).sum + (l.map h).sum := by
  induction l with
  | nil => simp
  | cons a t ih => simp [ih]; ring

lemma sum_map_ite_eq (k : String) (x : ℚ) :
    ∀ (cats : List String), cats.Nodup → k ∈ cats →
      (cats.map (fun c => if k = c then x else 0)).sum = x := by
  intro cats
  induction cats with
  | nil => intro _ hk; simp at hk
  | cons c cs ih =>
    intro hnd hk
    by_cases hc : k = c
    · subst hc
      have hknot : k ∉ cs := (List.nodup_cons.mp hnd).1
      have hz : ∀ b ∈ cs, (if k = b then x else (0 : ℚ)) = 0 :=
        fun b hb => if_neg fun he => hknot (by rw [he]; exact hb)
      rw [List.map_cons, List.sum_cons, if_pos rfl, List.map_congr_left hz]
      simp
    · have hk2 : k ∈ cs := by
        rcases List.mem_cons.mp hk with h | h
        · exact absurd h hc
        · exact h
      rw [List.map_cons, List.sum_cons, if_neg hc,
        ih (List.nodup_cons.mp hnd).2 hk2, zero_add]

lemma sum_fiber (f : Record → ℚ) :
    ∀ (recs : List Record) (cats : List String), cats.Nodup →
      (∀ r ∈ recs, r.category ∈ cats) →
      (cats.map (fun c =>
        ((recs.filter (fun r => decide (r.category = c))).map f).sum)).sum
        = (recs.map f).sum := by
  intro recs
  induction recs with
  | nil => intro cats _ _; simp
  | cons r rs ih =>
    intro cats hnd hmem
    have hr : r.category ∈ cats := hmem r (List.mem_cons_self _ _)
    have hrs : ∀ x ∈ rs, x.category ∈ cats :=
      fun x hx => hmem x (List.mem_cons_of_mem _ hx)
    have hsplit : ∀ c : String,
        (((r :: rs).filter (fun q => decide (q.category = c))).map f).sum
          = (if r.category = c then f r else 0)
            + ((rs.filter (fun q => decide (q.category = c))).map f).sum := by
      intro c
      by_cases hc : r.category = c
      · simp [List.filter_cons, hc]
      · simp [List.filter_cons, hc]
    rw [List.map_congr_left (fun c _ => hsplit c), sum_map_add',
      sum_map_ite_eq r.category (f r) cats hnd hr, ih cats hnd hrs]
    simp

lemma sum_map_div (l : List ℚ) (b : ℚ) :
    (l.map (fun x => x / b)).sum = l.sum / b := by
  induction l with
  | nil => simp
  | cons a t ih => simp [ih]; ring

lemma abs_rne_sub (q : ℚ) : |(rne q : ℚ) - q| ≤ 1 / 2 := by
  have h1 : (⌊q⌋ : ℚ) ≤ q := Int.floor_le q
  have h2 : q < ⌊q⌋ + 1 := Int.lt_floor_add_one q
  unfold rne
  split_ifs with ha hb hc
  · rw [abs_le]; constructor <;> linarith
  · rw [abs_le]; push_cast; constructor <;> linarith
  · rw [abs_le]; constructor <;> linarith [not_lt.mp ha, not_lt.mp hb]
  · rw [abs_le]; push_cast; constructor <;> linarith [not_lt.mp ha, not_lt.mp hb]

lemma abs_round2_sub (q : ℚ) : |round2 q - q| ≤ 1 / 200 := by
  have h := abs_rne_sub (100 * q)
  unfold round2
  rw [show (rne (100 * q) : ℚ) / 100 - q = ((rne (100 * q) : ℚ) - 100 * q) / 100 by ring,
    abs_div, show |(100 : ℚ)| = 100 by norm_num]
  linarith

lemma abs_sum_round2 (l : List ℚ) :
    |(l.map round2).sum - l.sum| ≤ (l.length : ℚ) / 200 := by
  induction l with
  | nil => simp
  | cons a t ih =>
    have ha := abs_round2_sub a
    calc |((a :: t).map round2).sum - (a :: t).sum|
        = |(round2 a - a) + ((t.map round2).sum - t.sum)| := by
          rw [List.map_cons, List.sum_cons, List.sum_cons]; congr 1; ring
      _ ≤ |round2 a - a| + |(t.map round2).sum - t.sum| := abs_add _ _
      _ ≤ 1 / 200 + (t.length : ℚ) / 200 := add_le_add ha ih
      _ = (((a :: t).length : ℚ)) / 200 := by
          rw [List.length_cons]; push_cast; ring

/-- C9: category breakdown sums to the total within rounding tolerance. -/
theorem c9_breakdown_sums (recs : List Record) (h : recs ≠ [])
    (hinv : ∀ r ∈ recs, r.time_hours = r.time_minutes / 60) :
    |((calculate_metrics recs).category_breakdown.map Prod.snd).sum -
        (calculate_metrics recs).total_screen_time_hours| ≤
      (((calculate_metrics recs).category_breakdown.length : ℚ) + 1) / 200 := by
  have he : recs.isEmpty = false := by
    cases recs with
    | nil => exact absurd rfl h
    | cons a l => rfl
  have hcb : (calculate_metrics recs).category_breakdown
      = (catsOf recs).map (fun c => (c, round2 (catHoursOf recs c))) := by
    simp [calculate_metrics, he]
  have hts : (calculate_metrics recs).total_screen_time_hours
      = round2 (totalMinutesOf recs / 60) := by
    simp [calculate_metrics, he]
  rw [hcb, hts]
  have hmap : (((catsOf recs).map (fun c => (c, round2 (catHoursOf recs c)))).map Prod.snd)
      = ((catsOf recs).map (fun c => catHoursOf recs c)).map round2 := by
    simp only [List.map_map]
    rfl
  rw [hmap]
  have hsum : ((catsOf recs).map (fun c => catHoursOf recs c)).sum
      = totalMinutesOf recs / 60 := by
    have hfib := sum_fiber Record.time_hours recs (catsOf recs)
      (List.nodup_dedup _)
      (fun r hr => List.mem_dedup.mpr (List.mem_map_of_mem _ hr))
    have h2 : (recs.map Record.time_hours).sum
        = (recs.map (fun r => r.time_minutes / 60)).sum := by
      rw [List.map_congr_left hinv]
    have h3 : (recs.map (fun r => r.time_minutes / 60)).sum
        = (recs.map Record.time_minutes).sum / 60 := by
      rw [show recs.map (fun r => r.time_minutes / 60)
          = (recs.map Record.time_minutes).map (fun x => x / 60) from by
        rw [List.map_map]; rfl]
      exact sum_map_div _ _
    calc ((catsOf recs).map (fun c => catHoursOf recs c)).sum
        = (recs.map Record.time_hours).sum := hfib
      _ = totalMinutesOf recs / 60 := by rw [h2, h3]; rfl
  rw [← hsum]
  set L := (catsOf recs).map (fun c => catHoursOf recs c) with hL
  have tri : |(L.map round2).sum - round2 L.sum| ≤
      |(L.map round2).sum - L.sum| + |L.sum - round2 L.sum| := abs_sub_le _ _ _
  have b1 := abs_sum_round2 L
  have b2 : |L.sum - round2 L.sum| ≤ 1 / 200 := by
    rw [abs_sub_comm]
    exact abs_round2_sub L.sum
  have hlen : ((((catsOf recs).map
      (fun c => (c, round2 (catHoursOf recs c)))).length : ℚ)) = (L.length : ℚ) := by
    simp [hL]
  rw [hlen]
  linarith

/-- C9 witness. -/
theorem c9_breakdown_sums_witness :
    |((calculate_metrics [c9Rec]).category_breakdown.map Prod.snd).sum -
        (calculate_metrics [c9Rec]).total_screen_time_hours| ≤
      (((calculate_metrics [c9Rec]).category_breakdown.length : ℚ) + 1) / 200 :=
  c9_breakdown_sums [c9Rec] (by simp)
    (by intro r hr; rw [List.mem_singleton.mp hr]; rfl)

end Chronic
